import Mathlib

/-!
Verification of the fast-scraper pipeline (`src/scrapers/fast-scraper.js`).

We shallowly embed the scraper's components over an explicit model of the
process-local filesystem state:

* `canScrape` — the crawl-policy gate over a fixed robots.txt response
  environment (network behaviour is a parameter: each URL is mapped to the
  response its robots.txt fetch produces, or to a transport failure).
* `checkRobotsAndEnqueue` — the enqueue coordinator.  The JS version runs
  the checks under a concurrency cap of 10; the enqueued counter and the
  task list are order-insensitive and the single-threaded JS event loop
  makes the increments atomic, so a fold over the catalog is a faithful
  determinization.
* `requestHandler` — the page-recorder callback of the crawl engine.
* `cleanUpAndMoveFiles` — the dataset curator, in both its
  remove-storage-only mode and its normal mode.
* `scrapeDocs` — the orchestrator (the crawl engine itself is external; it
  is modelled as a per-URL fetch outcome environment driving the callbacks).

Filesystem model: the staging directory `./storage/request_queues/default`
(inside the `./storage` tree) and the dataset directory `./scrapers/datasets`
are each a flat association list of (file name, file content); `Option`
distinguishes an absent directory from an empty one.  In the embedding the
whole `./storage` tree exists exactly when the staging directory does: the
scraper only ever creates the staging path and only ever removes `./storage`
whole.  `fs.rmSync(path, { recursive: true })` follows Node's documented
semantics: it removes a (possibly non-empty) tree, and throws `ENOENT`
(caught and logged by the scraper) when the path does not exist.  The wall
clock read by `generateTimestamp` is a run parameter, held fixed across the
curation loop.  Because Lean's built-in `String` primitives do not reduce
well in the kernel, the JS string operations are defined over `String.data`
character lists.
-/

namespace FastScraper

/-! ## JS string primitives -/

/-- `sub` occurs as a contiguous sublist of `l`. -/
def listContains (sub l : List Char) : Bool :=
  match l with
  | [] => sub.isPrefixOf []
  | _ :: t => sub.isPrefixOf l || listContains sub t

/-- JavaScript `String.prototype.includes`. -/
def jsIncludes (s sub : String) : Bool :=
  listContains sub.data s.data

/-- JavaScript `String.prototype.endsWith`. -/
def strEndsWith (s suf : String) : Bool :=
  suf.data.isSuffixOf s.data

/-- JavaScript `str.replace(/ /g, '_')`: every space becomes an underscore. -/
def replaceSpaces (s : String) : String :=
  ⟨s.data.map (fun c => if c = ' ' then '_' else c)⟩

/-- JavaScript `String.prototype.trim`: strip leading and trailing
whitespace. -/
def trimStr (s : String) : String :=
  ⟨((s.data.dropWhile Char.isWhitespace).reverse.dropWhile Char.isWhitespace).reverse⟩

/-- JavaScript `String.prototype.padStart(2, '0')`. -/
def padStart2 (s : String) : String :=
  if 2 ≤ s.length then s else ⟨List.replicate (2 - s.length) '0' ++ s.data⟩

/-- JavaScript `String.prototype.slice(-2)`: the last two characters (the
whole string when it is shorter). -/
def sliceLastTwo (s : String) : String :=
  ⟨s.data.drop (s.data.length - 2)⟩

/-- Index of the last `.` in a character list, if any. -/
def lastDotIdx : List Char → Option Nat
  | [] => none
  | c :: rest =>
    match lastDotIdx rest with
    | some i => some (i + 1)
    | none => if c = '.' then some 0 else none

/-- Node `path.extname` restricted to bare file names (no directory part):
the extension runs from the last `.` to the end; a name whose only `.` is
its first character (a dotfile) has no extension. -/
def extname (f : String) : String :=
  match lastDotIdx f.data with
  | none => ""
  | some 0 => ""
  | some i => ⟨f.data.drop i⟩

/-- Node `path.basename(f, ext)` restricted to bare file names: strips
`ext` when it is a non-empty proper suffix of `f`. -/
def basenameMinus (f ext : String) : String :=
  if 0 < ext.data.length ∧ ext.data.length < f.data.length ∧
      ext.data.isSuffixOf f.data = true then
    ⟨f.data.take (f.data.length - ext.data.length)⟩
  else f

/-! ## Filesystem model -/

/-- A staged/dataset page record `{apiName, url, title, content}`.  A JSON
field that is absent and one that holds the empty string behave identically
in every check the scraper performs, so fields are plain strings. -/
structure PageRecord where
  apiName : String
  url : String
  title : String
  content : String
  deriving DecidableEq

/-- Content of a file: either text `JSON.parse` rejects, or a page record. -/
inductive FileData where
  | malformed
  | record (r : PageRecord)
  deriving DecidableEq

/-- A directory: file names paired with contents. -/
abbrev Dir := List (String × FileData)

/-- `fs.existsSync` of a name inside a directory. -/
def hasFile : Dir → String → Bool
  | [], _ => false
  | f :: d, n => f.1 == n || hasFile d n

/-- `fs.readFileSync` of a name inside a directory. -/
def lookupFile : Dir → String → Option FileData
  | [], _ => none
  | f :: d, n => if f.1 == n then some f.2 else lookupFile d n

/-- `fs.writeFileSync` / `fs.renameSync` into a directory: overwrite the
entry of the same name if present, else append. -/
def setFile : Dir → String → FileData → Dir
  | [], n, c => [(n, c)]
  | f :: d, n, c => if f.1 == n then (n, c) :: d else f :: setFile d n c

/-- `fs.unlinkSync`. -/
def removeFile : Dir → String → Dir
  | [], _ => []
  | f :: d, n => if f.1 == n then removeFile d n else f :: removeFile d n

/-- Number of entries of a directory carrying a given name. -/
def countFile : Dir → String → Nat
  | [], _ => 0
  | f :: d, n => (if f.1 == n then 1 else 0) + countFile d n

/-- The filesystem state the scraper touches: the staging directory
`./storage/request_queues/default` (standing for the whole `./storage`
tree) and the dataset directory `./scrapers/datasets`; `none` means the
directory does not exist on disk. -/
structure FS where
  staging : Option Dir
  dataset : Option Dir
  deriving DecidableEq

/-! ## CrawlPolicyGate and EnqueueCoordinator -/

/-- What fetching `<origin>/robots.txt` for a URL produces: a thrown
transport-level exception, or a response with an `ok` flag and a body. -/
inductive RobotsResponse where
  | failure
  | status (ok : Bool) (body : String)
  deriving DecidableEq

/-- `canScrape` from the source.  The JS function returns a
`Promise<boolean | undefined>`: `some b` models a returned boolean and
`none` models `undefined` — the `catch` block only logs and has no
`return`, so a transport failure falls off the end of the function. -/
def canScrape (resp : RobotsResponse) : Option Bool :=
  match resp with
  | .failure => none
  | .status ok body =>
    if ok then some (!jsIncludes body "Disallow: /")
    else some true

/-- JS truthiness of `canScrape`'s result, as tested by
`if (canScrapeResult)`. -/
def truthy : Option Bool → Bool
  | some b => b
  | none => false

/-- One catalog row, with the two columns the scraper reads. -/
structure CatalogEntry where
  API_Name : String
  Official_Documentation_URL : String
  deriving DecidableEq

/-- A request registered with the crawl engine: the URL plus the
`userData.apiName` tag. -/
structure FetchTask where
  url : String
  apiName : String
  deriving DecidableEq

/-- The body of `checkRobotsAndEnqueue`'s per-entry closure: enqueue the
URL (tagged with the apiName) and bump the counter when the policy result
is truthy, otherwise log a skip and do nothing. -/
def enqueueStep (robotsEnv : String → RobotsResponse)
    (acc : List FetchTask × Nat) (api : CatalogEntry) : List FetchTask × Nat :=
  if truthy (canScrape (robotsEnv api.Official_Documentation_URL)) then
    (acc.1 ++ [{ url := api.Official_Documentation_URL, apiName := api.API_Name }],
     acc.2 + 1)
  else acc

/-- `checkRobotsAndEnqueue` from the source: policy-check every entry and
return the registered tasks together with the enqueued count. -/
def checkRobotsAndEnqueue (robotsEnv : String → RobotsResponse)
    (apis : List CatalogEntry) : List FetchTask × Nat :=
  apis.foldl (enqueueStep robotsEnv) ([], 0)

/-! ## PageRecorder -/

/-- A successfully fetched document, reduced to what the handler reads:
`$('title').text()` and `$('body').text()`. -/
structure Page where
  titleText : String
  bodyText : String
  deriving DecidableEq

/-- The crawler's `requestHandler` from the source: create the staging
directory if absent and write the page record to
`<apiName with spaces replaced>.json`, overwriting any previous file of
that name. -/
def requestHandler (page : Page) (url apiName : String) (fs : FS) : FS :=
  let name := replaceSpaces apiName ++ ".json"
  let stg := fs.staging.getD []
  { fs with
    staging := some (setFile stg name
      (.record ⟨apiName, url, page.titleText, trimStr page.bodyText⟩)) }

/-! ## DatasetCurator -/

/-- The wall clock as `generateTimestamp` reads it (`month` is already the
1-based `getMonth() + 1`, `year` the full `getFullYear()`). -/
structure Clock where
  month : Nat
  day : Nat
  year : Nat
  hour : Nat
  minute : Nat
  second : Nat
  deriving DecidableEq

/-- `generateTimestamp` from the source: `MMDDYYHHMMSS`, each component
zero-padded to two digits, the year cut to its last two digits. -/
def generateTimestamp (c : Clock) : String :=
  padStart2 (toString c.month) ++ padStart2 (toString c.day) ++
  sliceLastTwo (toString c.year) ++ padStart2 (toString c.hour) ++
  padStart2 (toString c.minute) ++ padStart2 (toString c.second)

/-- The collision name built in the curator's rename branch:
`${basename}_${timestamp}${extname}`. -/
def renamedName (clock : Clock) (n : String) : String :=
  basenameMinus n (extname n) ++ "_" ++ generateTimestamp clock ++ extname n

/-- Log lines the curation loop can emit (one constructor per `console`
call in the loop body). -/
inductive CurateEvent where
  | deletedInvalid (name : String)
  | moved (name : String)
  | movedRenamed (name newName : String)
  | parseError (name : String)
  deriving DecidableEq

/-- State threaded through the curation loop: the staging directory, the
dataset directory (already created), and the log so far. -/
structure CurateState where
  staging : Dir
  dataset : Dir
  log : List CurateEvent
  deriving DecidableEq

/-- The invalidity test from the source, verbatim:
`!data.apiName || !data.url || !data.title || !data.content ||
data.title.includes('404')` (a JS string is falsy exactly when empty). -/
def failsValidation (r : PageRecord) : Bool :=
  r.apiName == "" || r.url == "" || r.title == "" || r.content == "" ||
  jsIncludes r.title "404"

/-- One iteration of the curator's `forEach` body on the file named `n`:
skip non-`.json` names; log (and leave the file) when reading/parsing
fails; delete invalid records; move valid ones to the dataset directory,
renaming with a timestamp suffix when the destination name already
exists. -/
def curateFile (clock : Clock) (st : CurateState) (n : String) : CurateState :=
  if strEndsWith n ".json" then
    match lookupFile st.staging n with
    | none => { st with log := st.log ++ [.parseError n] }
    | some .malformed => { st with log := st.log ++ [.parseError n] }
    | some (.record r) =>
      if failsValidation r then
        { st with staging := removeFile st.staging n,
                  log := st.log ++ [.deletedInvalid n] }
      else if hasFile st.dataset n then
        { st with staging := removeFile st.staging n,
                  dataset := setFile st.dataset (renamedName clock n) (.record r),
                  log := st.log ++ [.movedRenamed n (renamedName clock n)] }
      else
        { st with staging := removeFile st.staging n,
                  dataset := setFile st.dataset n (.record r),
                  log := st.log ++ [.moved n] }
  else st

/-- Outcome of a curator call (and, below, of a whole run). -/
structure RunReport where
  fs : FS
  log : List CurateEvent
  rmFailLogged : Bool
  crashed : Bool
  deriving DecidableEq

/-- `cleanUpAndMoveFiles` from the source.  `removeStorageOnly = true`:
remove `./storage` recursively, logging (not raising) the `ENOENT` when it
is absent.  Normal mode: create the dataset directory if absent, iterate
the curation body over the staging listing, then remove `./storage`
recursively — Node's recursive `rmSync` succeeds even when files were left
behind.  When the staging directory is absent in normal mode,
`fs.readdirSync` throws and nothing in the function catches it
(`crashed`). -/
def cleanUpAndMoveFiles (clock : Clock) (removeStorageOnly : Bool)
    (fs0 : FS) : RunReport :=
  if removeStorageOnly then
    match fs0.staging with
    | some _ =>
      { fs := { fs0 with staging := none }, log := [],
        rmFailLogged := false, crashed := false }
    | none =>
      { fs := fs0, log := [], rmFailLogged := true, crashed := false }
  else
    let ds0 := fs0.dataset.getD []
    match fs0.staging with
    | none =>
      { fs := { staging := none, dataset := some ds0 }, log := [],
        rmFailLogged := false, crashed := true }
    | some stg =>
      let final := (stg.map (fun f => f.1)).foldl (curateFile clock) ⟨stg, ds0, []⟩
      { fs := { staging := none, dataset := some final.dataset },
        log := final.log, rmFailLogged := false, crashed := false }

/-! ## Orchestrator -/

/-- What the crawl engine's fetch of a URL produces: a document handed to
`requestHandler`, or a failure handed to `failedRequestHandler` (which only
logs). -/
inductive FetchOutcome where
  | success (page : Page)
  | failure

/-- `crawler.run()`: every registered task either yields a page (recorded
by `requestHandler`) or fails (logged, no filesystem effect). -/
def runCrawler (fetchEnv : String → FetchOutcome) (tasks : List FetchTask)
    (fs : FS) : FS :=
  tasks.foldl
    (fun fs t =>
      match fetchEnv t.url with
      | .success page => requestHandler page t.url t.apiName fs
      | .failure => fs)
    fs

/-- Spec-side definition (§4.3): an entry "resolves to allow" when the
policy gate actually returned the boolean `true` for its URL. -/
def allowed (robotsEnv : String → RobotsResponse) (api : CatalogEntry) : Bool :=
  canScrape (robotsEnv api.Official_Documentation_URL) == some true

/-- The fetch task registered for a catalog entry, tagged with its
apiName. -/
def toTask (api : CatalogEntry) : FetchTask :=
  { url := api.Official_Documentation_URL, apiName := api.API_Name }

/-- Result of a whole `scrapeDocs` run. -/
structure RunResult where
  report : RunReport
  enqueuedCount : Nat
  tasks : List FetchTask
  engineRan : Bool

/-- `scrapeDocs` from the source: enqueue through the policy gate; when
nothing was enqueued, clean the storage folder and return without running
the crawler; otherwise run the crawler and curate. -/
def scrapeDocs (robotsEnv : String → RobotsResponse)
    (fetchEnv : String → FetchOutcome) (clock : Clock)
    (apis : List CatalogEntry) (fs0 : FS) : RunResult :=
  let p := checkRobotsAndEnqueue robotsEnv apis
  if p.2 = 0 then
    { report := cleanUpAndMoveFiles clock true fs0,
      enqueuedCount := p.2, tasks := p.1, engineRan := false }
  else
    { report := cleanUpAndMoveFiles clock false (runCrawler fetchEnv p.1 fs0),
      enqueuedCount := p.2, tasks := p.1, engineRan := true }

end FastScraper

namespace FastScraper

/-! ## Helper lemmas -/

theorem truthy_eq_beq (o : Option Bool) : truthy o = (o == some true) := by
  rcases o with _ | b
  · rfl
  · cases b <;> rfl

theorem lookupFile_setFile_self (d : Dir) (n : String) (c : FileData) :
    lookupFile (setFile d n c) n = some c := by
  induction d with
  | nil => simp [setFile, lookupFile]
  | cons f d ih =>
    cases hf : (f.1 == n) with
    | true => simp [setFile, hf, lookupFile]
    | false => simp [setFile, hf, lookupFile, ih]

theorem lookupFile_setFile_ne (d : Dir) (n m : String) (c : FileData)
    (h : m ≠ n) : lookupFile (setFile d n c) m = lookupFile d m := by
  have hnm : (n == m) = false := beq_eq_false_iff_ne.mpr (Ne.symm h)
  induction d with
  | nil => simp [setFile, lookupFile, hnm]
  | cons f d ih =>
    cases hf : (f.1 == n) with
    | true =>
      have hfn : f.1 = n := by simpa using hf
      simp [setFile, hf, lookupFile, hfn, hnm]
    | false => simp [setFile, hf, lookupFile, ih]

theorem countFile_eq_zero (d : Dir) (n : String) :
    n ∉ d.map Prod.fst → countFile d n = 0 := by
  induction d with
  | nil => intro _; rfl
  | cons f d ih =>
    intro h
    simp only [List.map_cons, List.mem_cons, not_or] at h
    have hf : (f.1 == n) = false :=
      beq_eq_false_iff_ne.mpr (fun e => h.1 e.symm)
    simp [countFile, hf, ih h.2]

theorem countFile_setFile (d : Dir) (n : String) (c : FileData) :
    (d.map Prod.fst).Nodup → countFile (setFile d n c) n = 1 := by
  induction d with
  | nil => intro _; simp [setFile, countFile]
  | cons f d ih =>
    intro h
    simp only [List.map_cons, List.nodup_cons] at h
    cases hf : (f.1 == n) with
    | true =>
      have hfn : f.1 = n := by simpa using hf
      have hz : countFile d n = 0 := countFile_eq_zero d n (hfn ▸ h.1)
      simp [setFile, hf, countFile, hz]
    | false =>
      simp [setFile, hf, countFile, ih h.2]

theorem enqueue_foldl_spec (robotsEnv : String → RobotsResponse)
    (apis : List CatalogEntry) :
    ∀ acc : List FetchTask × Nat,
      apis.foldl (enqueueStep robotsEnv) acc =
        (acc.1 ++ (apis.filter (allowed robotsEnv)).map toTask,
         acc.2 + (apis.filter (allowed robotsEnv)).length) := by
  induction apis with
  | nil => intro acc; simp
  | cons a t ih =>
    intro acc
    rw [List.foldl_cons]
    cases h : allowed robotsEnv a with
    | true =>
      have hc : truthy (canScrape (robotsEnv a.Official_Documentation_URL)) = true := by
        rw [truthy_eq_beq]; exact h
      have hstep : enqueueStep robotsEnv acc a = (acc.1 ++ [toTask a], acc.2 + 1) := by
        simp [enqueueStep, hc, toTask]
      rw [hstep, ih]
      simp [List.filter_cons, h, Nat.add_assoc, Nat.add_comm 1]
    | false =>
      have hc : truthy (canScrape (robotsEnv a.Official_Documentation_URL)) = false := by
        rw [truthy_eq_beq]; exact h
      have hstep : enqueueStep robotsEnv acc a = acc := by
        simp [enqueueStep, hc]
      rw [hstep, ih]
      simp [List.filter_cons, h]

theorem cleanUp_staging_none (clock : Clock) (b : Bool) (fs0 : FS) :
    (cleanUpAndMoveFiles clock b fs0).fs.staging = none := by
  rcases fs0 with ⟨stg, ds⟩
  cases b <;> rcases stg with _ | stg <;> simp [cleanUpAndMoveFiles]

end FastScraper

namespace FastScraper

/-! ## Claim theorems -/

/-- C1: after any completed run — enqueued-zero mode or normal mode — the
staging area does not exist on disk: every terminating path of
`scrapeDocs` ends with the recursive removal of the `./storage` tree (or
finds it already absent), regardless of how many records succeeded,
failed, or were left behind. -/
theorem C1_staging_never_left_behind (robotsEnv : String → RobotsResponse)
    (fetchEnv : String → FetchOutcome) (clock : Clock)
    (apis : List CatalogEntry) (fs0 : FS) :
    (scrapeDocs robotsEnv fetchEnv clock apis fs0).report.fs.staging = none := by
  simp only [scrapeDocs]
  by_cases h : (checkRobotsAndEnqueue robotsEnv apis).2 = 0 <;>
    simp [h, cleanUp_staging_none]

/-- C2 (code-bug evaluation): a transport-level exception in the
robots.txt fetch makes `canScrape` return `undefined` (modelled `none`,
falsy), so `checkRobotsAndEnqueue` skips the URL as disallowed — it does
not resolve to allow, unlike the non-success-status path, which returns
`true` and enqueues the URL. -/
theorem C2_exception_path_skips_instead_of_allowing :
    canScrape .failure = none ∧
    truthy (canScrape .failure) = false ∧
    canScrape (.status false "") = some true ∧
    checkRobotsAndEnqueue (fun _ => .failure)
      [⟨"SomeAPI", "https://x.example/"⟩] = ([], 0) ∧
    checkRobotsAndEnqueue (fun _ => .status false "")
      [⟨"SomeAPI", "https://x.example/"⟩] =
      ([⟨"https://x.example/", "SomeAPI"⟩], 1) := by
  exact ⟨rfl, rfl, rfl, by decide, by decide⟩

/-- C5: `checkRobotsAndEnqueue` registers exactly one task (tagged with
the entry's apiName) per entry whose policy evaluation resolves to allow,
none for other entries, and returns the number of allowed entries; on a
2-entry catalog with one denied and one allowed entry it returns count 1
and one task. -/
theorem C5_enqueue_exactly_allowed (robotsEnv : String → RobotsResponse)
    (apis : List CatalogEntry) :
    checkRobotsAndEnqueue robotsEnv apis =
      ((apis.filter (allowed robotsEnv)).map toTask,
       (apis.filter (allowed robotsEnv)).length) ∧
    checkRobotsAndEnqueue
      (fun u => if u == "https://deny.example/docs" then
          .status true "User-agent: *\nDisallow: /\n"
        else .status true "User-agent: *\nAllow: /\n")
      [⟨"Denied API", "https://deny.example/docs"⟩,
       ⟨"Allowed API", "https://allow.example/docs"⟩] =
      ([⟨"https://allow.example/docs", "Allowed API"⟩], 1) := by
  constructor
  · rw [checkRobotsAndEnqueue, enqueue_foldl_spec]
    simp
  · decide

/-- C6 (code-bug evaluation): `canScrape` returns deny (`some false`)
when the policy resource is fetched with a success status and contains
the broad disallow directive, and allow (`some true`) on a success
status without it or on a non-success status; but on an unreachable
resource (transport exception) it returns `undefined` (`none`), not
allow as claimed. -/
theorem C6_gate_decision_table :
    canScrape (.status true "User-agent: *\nDisallow: /\n") = some false ∧
    canScrape (.status true "User-agent: *\nAllow: /\n") = some true ∧
    canScrape (.status false "User-agent: *\nDisallow: /\n") = some true ∧
    canScrape .failure = none := by
  exact ⟨by decide, by decide, by decide, rfl⟩

/-- C7: when the enqueued count is 0 the orchestrator never runs the
crawl engine; the curator's zero mode removes the staging area (logging,
not raising, the failure when it is already absent) and leaves the
dataset directory completely untouched. -/
theorem C7_zero_mode_frame (robotsEnv : String → RobotsResponse)
    (fetchEnv : String → FetchOutcome) (clock : Clock)
    (apis : List CatalogEntry) (fs0 : FS)
    (h : (checkRobotsAndEnqueue robotsEnv apis).2 = 0) :
    (scrapeDocs robotsEnv fetchEnv clock apis fs0).engineRan = false ∧
    (scrapeDocs robotsEnv fetchEnv clock apis fs0).report.fs.dataset = fs0.dataset ∧
    (scrapeDocs robotsEnv fetchEnv clock apis fs0).report.fs.staging = none ∧
    (scrapeDocs robotsEnv fetchEnv clock apis fs0).report.log = [] ∧
    (scrapeDocs robotsEnv fetchEnv clock apis fs0).report.crashed = false ∧
    (scrapeDocs robotsEnv fetchEnv clock apis fs0).report.rmFailLogged =
      fs0.staging.isNone := by
  have hs : scrapeDocs robotsEnv fetchEnv clock apis fs0 =
      { report := cleanUpAndMoveFiles clock true fs0,
        enqueuedCount := (checkRobotsAndEnqueue robotsEnv apis).2,
        tasks := (checkRobotsAndEnqueue robotsEnv apis).1,
        engineRan := false } := by
    simp [scrapeDocs, h]
  rw [hs]
  rcases fs0 with ⟨stg, ds⟩
  rcases stg with _ | stg <;> simp [cleanUpAndMoveFiles]

/-- Witness for C7: a concrete empty catalog, with a pre-existing dataset
file and no staging area. -/
theorem C7_zero_mode_frame_witness :
    (scrapeDocs (fun _ => RobotsResponse.failure) (fun _ => FetchOutcome.failure)
      ⟨10, 11, 2025, 12, 34, 56⟩ []
      ⟨none, some [("keep.json", FileData.malformed)]⟩).engineRan = false ∧
    (scrapeDocs (fun _ => RobotsResponse.failure) (fun _ => FetchOutcome.failure)
      ⟨10, 11, 2025, 12, 34, 56⟩ []
      ⟨none, some [("keep.json", FileData.malformed)]⟩).report.fs.dataset =
      (⟨none, some [("keep.json", FileData.malformed)]⟩ : FS).dataset ∧
    (scrapeDocs (fun _ => RobotsResponse.failure) (fun _ => FetchOutcome.failure)
      ⟨10, 11, 2025, 12, 34, 56⟩ []
      ⟨none, some [("keep.json", FileData.malformed)]⟩).report.fs.staging = none ∧
    (scrapeDocs (fun _ => RobotsResponse.failure) (fun _ => FetchOutcome.failure)
      ⟨10, 11, 2025, 12, 34, 56⟩ []
      ⟨none, some [("keep.json", FileData.malformed)]⟩).report.log = [] ∧
    (scrapeDocs (fun _ => RobotsResponse.failure) (fun _ => FetchOutcome.failure)
      ⟨10, 11, 2025, 12, 34, 56⟩ []
      ⟨none, some [("keep.json", FileData.malformed)]⟩).report.crashed = false ∧
    (scrapeDocs (fun _ => RobotsResponse.failure) (fun _ => FetchOutcome.failure)
      ⟨10, 11, 2025, 12, 34, 56⟩ []
      ⟨none, some [("keep.json", FileData.malformed)]⟩).report.rmFailLogged =
      (⟨none, some [("keep.json", FileData.malformed)]⟩ : FS).staging.isNone :=
  C7_zero_mode_frame (fun _ => RobotsResponse.failure) (fun _ => FetchOutcome.failure)
    ⟨10, 11, 2025, 12, 34, 56⟩ []
    ⟨none, some [("keep.json", FileData.malformed)]⟩ (by decide)

end FastScraper

namespace FastScraper

/-- The renamed collision target is strictly longer than the original
file name (the underscore alone guarantees it), whether or not an
extension was recognised and stripped. -/
theorem renamedName_longer (clock : Clock) (n : String) :
    n.data.length < (renamedName clock n).data.length := by
  have hd : ∀ s t : String, (s ++ t).data = s.data ++ t.data := fun s t => rfl
  have hmk : ∀ l : List Char, (String.mk l).data = l := fun _ => rfl
  have h1 : (['_'] : List Char).length = 1 := rfl
  unfold renamedName
  rw [hd, hd, hd]
  simp only [List.length_append]
  unfold basenameMinus
  split
  case isTrue h =>
    simp only [hmk, List.length_take]
    omega
  case isFalse h => omega

theorem renamedName_ne (clock : Clock) (n : String) : renamedName clock n ≠ n := by
  intro h
  have hlen := congrArg (fun s : String => s.data.length) h
  simp only [] at hlen
  have hlt := renamedName_longer clock n
  omega

/-- C3: a staged record is valid exactly when all four fields are
non-empty and the title does not contain the `404` marker; during
normal-mode curation an invalid record is deleted (and nothing reaches
the dataset from it) while a valid one is moved — the `FileData.record r`
content itself, unchanged — into the dataset directory, under its own
name or, on collision, under the timestamp-renamed name. -/
theorem C3_validity_and_curation (clock : Clock) (st : CurateState)
    (n : String) (r : PageRecord)
    (hj : strEndsWith n ".json" = true)
    (hl : lookupFile st.staging n = some (FileData.record r)) :
    (failsValidation r = false ↔
      (r.apiName ≠ "" ∧ r.url ≠ "" ∧ r.title ≠ "" ∧ r.content ≠ "" ∧
       jsIncludes r.title "404" = false)) ∧
    (failsValidation r = true →
      curateFile clock st n =
        { st with staging := removeFile st.staging n,
                  log := st.log ++ [CurateEvent.deletedInvalid n] }) ∧
    (failsValidation r = false → hasFile st.dataset n = false →
      curateFile clock st n =
        { st with staging := removeFile st.staging n,
                  dataset := setFile st.dataset n (FileData.record r),
                  log := st.log ++ [CurateEvent.moved n] }) ∧
    (failsValidation r = false → hasFile st.dataset n = true →
      curateFile clock st n =
        { st with staging := removeFile st.staging n,
                  dataset := setFile st.dataset (renamedName clock n) (FileData.record r),
                  log := st.log ++ [CurateEvent.movedRenamed n (renamedName clock n)] }) ∧
    (failsValidation r = false →
      ∃ m, lookupFile (curateFile clock st n).dataset m = some (FileData.record r)) := by
  refine ⟨by simp [failsValidation, beq_eq_false_iff_ne, and_assoc],
    fun hv => by simp [curateFile, hj, hl, hv],
    fun hv hd => by simp [curateFile, hj, hl, hv, hd],
    fun hv hd => by simp [curateFile, hj, hl, hv, hd],
    fun hv => ?_⟩
  cases hd : hasFile st.dataset n with
  | false =>
    refine ⟨n, ?_⟩
    simp only [curateFile, hj, if_true, hl, hv, hd, Bool.false_eq_true, if_neg,
      not_false_eq_true]
    simp [lookupFile_setFile_self]
  | true =>
    refine ⟨renamedName clock n, ?_⟩
    simp only [curateFile, hj, if_true, hl, hv, hd, Bool.false_eq_true, if_neg,
      not_false_eq_true]
    simp [lookupFile_setFile_self]

/-- Witness for C3: a valid record is moved into the empty dataset
directory, and a record whose title contains `404` is deleted. -/
theorem C3_validity_and_curation_witness :
    curateFile ⟨10, 11, 2025, 12, 34, 56⟩
      ⟨[("My_API.json", FileData.record ⟨"My API", "https://u/", "Title", "Body"⟩)],
       [], []⟩ "My_API.json" =
      { staging := [],
        dataset := [("My_API.json",
          FileData.record ⟨"My API", "https://u/", "Title", "Body"⟩)],
        log := [CurateEvent.moved "My_API.json"] } ∧
    curateFile ⟨10, 11, 2025, 12, 34, 56⟩
      ⟨[("Bad_API.json", FileData.record ⟨"Bad API", "https://u/", "404 Not Found", "Body"⟩)],
       [], []⟩ "Bad_API.json" =
      { staging := [], dataset := [],
        log := [CurateEvent.deletedInvalid "Bad_API.json"] } :=
  ⟨((C3_validity_and_curation ⟨10, 11, 2025, 12, 34, 56⟩
      ⟨[("My_API.json", FileData.record ⟨"My API", "https://u/", "Title", "Body"⟩)],
       [], []⟩ "My_API.json" ⟨"My API", "https://u/", "Title", "Body"⟩
      (by decide) (by decide)).2.2.1 (by decide) (by decide)).trans (by decide),
   ((C3_validity_and_curation ⟨10, 11, 2025, 12, 34, 56⟩
      ⟨[("Bad_API.json", FileData.record ⟨"Bad API", "https://u/", "404 Not Found", "Body"⟩)],
       [], []⟩ "Bad_API.json" ⟨"Bad API", "https://u/", "404 Not Found", "Body"⟩
      (by decide) (by decide)).2.1 (by decide)).trans (by decide)⟩

/-- C4: moving a valid record whose target name already exists in the
dataset directory never deletes or overwrites the pre-existing file: the
entry under the original name is untouched, and the incoming record is
stored under the distinct name built by inserting an underscore and the
zero-padded `MMDDYYHHMMSS` timestamp before the extension. -/
theorem C4_collision_append_only (clock : Clock) (st : CurateState)
    (n : String) (r : PageRecord)
    (hj : strEndsWith n ".json" = true)
    (hl : lookupFile st.staging n = some (FileData.record r))
    (hv : failsValidation r = false)
    (hc : hasFile st.dataset n = true) :
    renamedName clock n ≠ n ∧
    renamedName clock n =
      basenameMinus n (extname n) ++ "_" ++ generateTimestamp clock ++ extname n ∧
    lookupFile (curateFile clock st n).dataset n = lookupFile st.dataset n ∧
    lookupFile (curateFile clock st n).dataset (renamedName clock n) =
      some (FileData.record r) ∧
    generateTimestamp ⟨10, 11, 2025, 12, 34, 56⟩ = "101125123456" := by
  have hcur : curateFile clock st n =
      { st with staging := removeFile st.staging n,
                dataset := setFile st.dataset (renamedName clock n) (FileData.record r),
                log := st.log ++ [CurateEvent.movedRenamed n (renamedName clock n)] } := by
    simp [curateFile, hj, hl, hv, hc]
  refine ⟨renamedName_ne clock n, rfl, ?_, ?_, by decide⟩
  · rw [hcur]
    exact lookupFile_setFile_ne _ _ _ _ (Ne.symm (renamedName_ne clock n))
  · rw [hcur]
    exact lookupFile_setFile_self _ _ _

/-- Witness for C4: the §8 scenario — a valid incoming `Stripe_API.json`
colliding with a pre-existing `Stripe_API.json`. -/
theorem C4_collision_append_only_witness :
    renamedName ⟨10, 11, 2025, 12, 34, 56⟩ "Stripe_API.json" ≠ "Stripe_API.json" ∧
    renamedName ⟨10, 11, 2025, 12, 34, 56⟩ "Stripe_API.json" =
      basenameMinus "Stripe_API.json" (extname "Stripe_API.json") ++ "_" ++
      generateTimestamp ⟨10, 11, 2025, 12, 34, 56⟩ ++ extname "Stripe_API.json" ∧
    lookupFile (curateFile ⟨10, 11, 2025, 12, 34, 56⟩
      ⟨[("Stripe_API.json", FileData.record ⟨"Stripe API", "https://new/", "T", "C"⟩)],
       [("Stripe_API.json", FileData.record ⟨"Old", "https://old/", "T", "C"⟩)],
       []⟩ "Stripe_API.json").dataset "Stripe_API.json" =
      lookupFile [("Stripe_API.json", FileData.record ⟨"Old", "https://old/", "T", "C"⟩)]
        "Stripe_API.json" ∧
    lookupFile (curateFile ⟨10, 11, 2025, 12, 34, 56⟩
      ⟨[("Stripe_API.json", FileData.record ⟨"Stripe API", "https://new/", "T", "C"⟩)],
       [("Stripe_API.json", FileData.record ⟨"Old", "https://old/", "T", "C"⟩)],
       []⟩ "Stripe_API.json").dataset
      (renamedName ⟨10, 11, 2025, 12, 34, 56⟩ "Stripe_API.json") =
      some (FileData.record ⟨"Stripe API", "https://new/", "T", "C"⟩) ∧
    generateTimestamp ⟨10, 11, 2025, 12, 34, 56⟩ = "101125123456" :=
  C4_collision_append_only ⟨10, 11, 2025, 12, 34, 56⟩
    ⟨[("Stripe_API.json", FileData.record ⟨"Stripe API", "https://new/", "T", "C"⟩)],
     [("Stripe_API.json", FileData.record ⟨"Old", "https://old/", "T", "C"⟩)],
     []⟩ "Stripe_API.json" ⟨"Stripe API", "https://new/", "T", "C"⟩
    (by decide) (by decide) (by decide) (by decide)

/-- C8 counterexample: a staging area holding one unparsable `bad.json`.
The parse failure is logged and the file is left in place by the loop,
but the final recursive removal of the storage tree then succeeds
silently — `rmFailLogged = false`, no crash, staging gone — rather than
failing loudly as the claim states. -/
theorem C8_removal_silent_counterexample :
    (cleanUpAndMoveFiles ⟨10, 11, 2025, 12, 34, 56⟩ false
      ⟨some [("bad.json", FileData.malformed)], some []⟩).log =
      [CurateEvent.parseError "bad.json"] ∧
    (cleanUpAndMoveFiles ⟨10, 11, 2025, 12, 34, 56⟩ false
      ⟨some [("bad.json", FileData.malformed)], some []⟩).rmFailLogged = false ∧
    (cleanUpAndMoveFiles ⟨10, 11, 2025, 12, 34, 56⟩ false
      ⟨some [("bad.json", FileData.malformed)], some []⟩).crashed = false ∧
    (cleanUpAndMoveFiles ⟨10, 11, 2025, 12, 34, 56⟩ false
      ⟨some [("bad.json", FileData.malformed)], some []⟩).fs.staging = none := by
  decide

/-- C8 (amended): a staged file that fails to parse is logged and left in
place by the curation loop, which continues with the remaining files; the
subsequent unconditional recursive removal of the staging area then
succeeds silently — deleting the left-behind files with the rest of the
tree — and reports no error. -/
theorem C8_parse_failure_left_then_silent_removal (clock : Clock)
    (st : CurateState) (n : String) (fs0 : FS) (stg : Dir)
    (hj : strEndsWith n ".json" = true)
    (hm : lookupFile st.staging n = some FileData.malformed)
    (hs : fs0.staging = some stg) :
    curateFile clock st n = { st with log := st.log ++ [CurateEvent.parseError n] } ∧
    (cleanUpAndMoveFiles clock false fs0).rmFailLogged = false ∧
    (cleanUpAndMoveFiles clock false fs0).crashed = false ∧
    (cleanUpAndMoveFiles clock false fs0).fs.staging = none := by
  refine ⟨by simp [curateFile, hj, hm], ?_, ?_, ?_⟩ <;>
    simp [cleanUpAndMoveFiles, hs]

/-- Witness for the amended C8, at the counterexample's input. -/
theorem C8_parse_failure_witness :
    curateFile ⟨10, 11, 2025, 12, 34, 56⟩
      ⟨[("bad.json", FileData.malformed)], [], []⟩ "bad.json" =
      { staging := [("bad.json", FileData.malformed)], dataset := [],
        log := [CurateEvent.parseError "bad.json"] } ∧
    (cleanUpAndMoveFiles ⟨10, 11, 2025, 12, 34, 56⟩ false
      ⟨some [("bad.json", FileData.malformed)], some []⟩).rmFailLogged = false ∧
    (cleanUpAndMoveFiles ⟨10, 11, 2025, 12, 34, 56⟩ false
      ⟨some [("bad.json", FileData.malformed)], some []⟩).crashed = false ∧
    (cleanUpAndMoveFiles ⟨10, 11, 2025, 12, 34, 56⟩ false
      ⟨some [("bad.json", FileData.malformed)], some []⟩).fs.staging = none :=
  C8_parse_failure_left_then_silent_removal ⟨10, 11, 2025, 12, 34, 56⟩
    ⟨[("bad.json", FileData.malformed)], [], []⟩ "bad.json"
    ⟨some [("bad.json", FileData.malformed)], some []⟩
    [("bad.json", FileData.malformed)] (by decide) (by decide) rfl

/-- C9: for a successfully fetched page, the recorder leaves the staging
area existing (create-if-absent), writes exactly one record file named by
the apiName with spaces replaced by underscores plus `.json` —
overwriting any prior staged file of that name — and touches nothing
else: other staged files and the dataset directory are unchanged. -/
theorem C9_page_recorder (page : Page) (url apiName : String) (fs : FS)
    (hnd : ((fs.staging.getD []).map Prod.fst).Nodup) :
    ((requestHandler page url apiName fs).staging).isSome = true ∧
    (requestHandler page url apiName fs).staging =
      some (setFile (fs.staging.getD []) (replaceSpaces apiName ++ ".json")
        (FileData.record ⟨apiName, url, page.titleText, trimStr page.bodyText⟩)) ∧
    lookupFile ((requestHandler page url apiName fs).staging.getD [])
      (replaceSpaces apiName ++ ".json") =
      some (FileData.record ⟨apiName, url, page.titleText, trimStr page.bodyText⟩) ∧
    countFile ((requestHandler page url apiName fs).staging.getD [])
      (replaceSpaces apiName ++ ".json") = 1 ∧
    (∀ m, m ≠ replaceSpaces apiName ++ ".json" →
      lookupFile ((requestHandler page url apiName fs).staging.getD []) m =
      lookupFile (fs.staging.getD []) m) ∧
    (requestHandler page url apiName fs).dataset = fs.dataset :=
  ⟨rfl, rfl, lookupFile_setFile_self _ _ _, countFile_setFile _ _ _ hnd,
   fun m hm => lookupFile_setFile_ne _ _ _ _ hm, rfl⟩

/-- Witness for C9: recording apiName `My API` over a staging area that
already holds an unrelated file. -/
theorem C9_page_recorder_witness :
    ((requestHandler ⟨"T", " body "⟩ "https://u/" "My API"
      ⟨some [("Old.json", FileData.malformed)], some []⟩).staging).isSome = true ∧
    (requestHandler ⟨"T", " body "⟩ "https://u/" "My API"
      ⟨some [("Old.json", FileData.malformed)], some []⟩).staging =
      some (setFile [("Old.json", FileData.malformed)]
        (replaceSpaces "My API" ++ ".json")
        (FileData.record ⟨"My API", "https://u/", "T", trimStr " body "⟩)) ∧
    lookupFile ((requestHandler ⟨"T", " body "⟩ "https://u/" "My API"
      ⟨some [("Old.json", FileData.malformed)], some []⟩).staging.getD [])
      (replaceSpaces "My API" ++ ".json") =
      some (FileData.record ⟨"My API", "https://u/", "T", trimStr " body "⟩) ∧
    countFile ((requestHandler ⟨"T", " body "⟩ "https://u/" "My API"
      ⟨some [("Old.json", FileData.malformed)], some []⟩).staging.getD [])
      (replaceSpaces "My API" ++ ".json") = 1 ∧
    lookupFile ((requestHandler ⟨"T", " body "⟩ "https://u/" "My API"
      ⟨some [("Old.json", FileData.malformed)], some []⟩).staging.getD [])
      "Old.json" =
      lookupFile [("Old.json", FileData.malformed)] "Old.json" ∧
    (requestHandler ⟨"T", " body "⟩ "https://u/" "My API"
      ⟨some [("Old.json", FileData.malformed)], some []⟩).dataset =
      (⟨some [("Old.json", FileData.malformed)], some []⟩ : FS).dataset := by
  have h := C9_page_recorder ⟨"T", " body "⟩ "https://u/" "My API"
    ⟨some [("Old.json", FileData.malformed)], some []⟩ (by decide)
  exact ⟨h.1, h.2.1, h.2.2.1, h.2.2.2.1,
    h.2.2.2.2.1 "Old.json" (by decide), h.2.2.2.2.2⟩

/-- C10: the curation loop body leaves any staging file whose name does
not end in `.json` completely alone — no validation, no deletion, no
move, no log line — and such files disappear only because the final
recursive removal deletes the whole staging area. -/
theorem C10_non_json_untouched (clock : Clock) (st : CurateState)
    (n : String) (fs0 : FS) (stg : Dir)
    (h : strEndsWith n ".json" = false) (hs : fs0.staging = some stg) :
    curateFile clock st n = st ∧
    (cleanUpAndMoveFiles clock false fs0).fs.staging = none ∧
    (cleanUpAndMoveFiles clock false fs0).crashed = false := by
  refine ⟨by simp [curateFile, h], ?_, ?_⟩ <;> simp [cleanUpAndMoveFiles, hs]

/-- Witness for C10: a leftover `notes.txt` in staging. -/
theorem C10_non_json_untouched_witness :
    curateFile ⟨10, 11, 2025, 12, 34, 56⟩
      ⟨[("notes.txt", FileData.malformed)], [], []⟩ "notes.txt" =
      ⟨[("notes.txt", FileData.malformed)], [], []⟩ ∧
    (cleanUpAndMoveFiles ⟨10, 11, 2025, 12, 34, 56⟩ false
      ⟨some [("notes.txt", FileData.malformed)], none⟩).fs.staging = none ∧
    (cleanUpAndMoveFiles ⟨10, 11, 2025, 12, 34, 56⟩ false
      ⟨some [("notes.txt", FileData.malformed)], none⟩).crashed = false :=
  C10_non_json_untouched ⟨10, 11, 2025, 12, 34, 56⟩
    ⟨[("notes.txt", FileData.malformed)], [], []⟩ "notes.txt"
    ⟨some [("notes.txt", FileData.malformed)], none⟩
    [("notes.txt", FileData.malformed)] (by decide) rfl

end FastScraper
